import Mathlib

/- Verification of the image-synthesis core of measure-galaxies
   (src/EDA/app/app.py), a GalSim-based galaxy image simulator.

   The embedding mirrors generate_image (app.py lines 39-75) statement by
   statement.  Calls into the external GalSim and NumPy libraries
   (rasterization, Poisson-noise application, normal sampling) are
   interpreted by an abstract environment `GalsimEnv`; every piece of
   mutable process state touched by the function - the image buffers that
   galsim mutates in place, the module-level seeded BaseDeviate `rng`, the
   NumPy global generator, and the entropy source consumed when an
   unseeded BaseDeviate is constructed - is threaded explicitly through a
   state record `St`. -/

noncomputable section

/-- Pixel images: 64 x 64 grids of real-valued flux samples (the contents
of a galsim ImageF buffer or a numpy array). -/
abbrev Image : Type := Fin 64 → Fin 64 → ℝ

/-- A freshly constructed galsim ImageF buffer is zero-filled. -/
def blankImage : Image := fun _ _ => 0

/-- app.py line 9: image_size = 64. -/
def image_size : ℕ := 64

/-- app.py line 10: pixel_scale = 0.23. -/
def pixel_scale : ℝ := 0.23

/-- app.py line 11: random_seed = 1314662. -/
def random_seed : ℕ := 1314662

/-- Abstract state of a galsim BaseDeviate (represented by the seed word it
was constructed from). -/
abbrev RngState : Type := ℕ

/-- Abstract state of the NumPy global random generator. -/
abbrev NpState : Type := ℕ

/-- app.py line 12: rng = galsim.BaseDeviate(random_seed + 1).  The
module-level seeded deviate.  Note that this name is never referenced
again anywhere in app.py. -/
def rng : RngState := random_seed + 1

/-- app.py line 13: psf_beta = 2 (Moffat concentration exponent). -/
def psf_beta : ℝ := 2

/-- Abstract syntax of the galsim surface-brightness profiles constructed
by generate_image: Sersic, withFlux, shear, Moffat and Convolve nodes,
exactly the combinators invoked on app.py lines 44-48 and 63. -/
inductive Profile : Type where
  | Sersic (n half_light_radius : ℝ)
  | withFlux (base : Profile) (flux : ℝ)
  | shear (base : Profile) (g1 g2 : ℝ)
  | Moffat (beta flux fwhm : ℝ)
  | Convolve (objs : List Profile)

/-- app.py line 40: A = (1 - gal_q) / (gal_q + 1). -/
def shearA (gal_q : ℝ) : ℝ := (1 - gal_q) / (gal_q + 1)

/-- app.py line 41: g_1 = A * np.cos(2 * gal_beta). -/
def shearG1 (gal_q gal_beta : ℝ) : ℝ := shearA gal_q * Real.cos (2 * gal_beta)

/-- app.py line 42: g_2 = A * np.sin(2 * gal_beta). -/
def shearG2 (gal_q gal_beta : ℝ) : ℝ := shearA gal_q * Real.sin (2 * gal_beta)

/-- app.py lines 44-46: the Sersic bulge, flux-rescaled then sheared. -/
def galProfile (bulge_re bulge_n gal_q gal_beta gal_flux : ℝ) : Profile :=
  Profile.shear (Profile.withFlux (Profile.Sersic bulge_n bulge_re) gal_flux)
    (shearG1 gal_q gal_beta) (shearG2 gal_q gal_beta)

/-- app.py line 47: psf = galsim.Moffat(beta=psf_beta, flux=1.0, fwhm=psf_re). -/
def psfProfile (psf_re : ℝ) : Profile := Profile.Moffat psf_beta 1.0 psf_re

/-- app.py line 48: final = galsim.Convolve([psf, gal]). -/
def finalProfile (psf_re bulge_re bulge_n gal_q gal_beta gal_flux : ℝ) : Profile :=
  Profile.Convolve [psfProfile psf_re, galProfile bulge_re bulge_n gal_q gal_beta gal_flux]

/-- Geometry of a galsim ImageF: pixel dimensions and angular pixel scale. -/
structure ImageSpec where
  nx : ℕ
  ny : ℕ
  scale : ℝ

/-- app.py lines 49 and 64: galsim.ImageF(image_size, image_size,
scale=pixel_scale). -/
def spec64 : ImageSpec := { nx := image_size, ny := image_size, scale := pixel_scale }

/-- Arguments of the galsim.PoissonNoise constructor: an optional deviate
(None means galsim creates a fresh unseeded BaseDeviate) and a sky level. -/
structure PoissonNoiseSpec where
  rngArg : Option RngState
  sky_level : ℝ

/-- Abstract semantics of the external GalSim and NumPy operations used by
generate_image: drawImage rasterization of a profile onto a grid,
application of Poisson shot noise by a given deviate at a given sky level,
and NumPy normal sampling (loc, scale, 64*64 draws) from the global
generator. -/
structure GalsimEnv where
  drawImage : Profile → ImageSpec → Image
  poissonApply : RngState → ℝ → Image → Image
  npNormal : NpState → ℝ → ℝ → (Fin (64 * 64) → ℝ) × NpState

/-- Process state threaded through a call of generate_image: the mutable
image buffers (a heap of numpy arrays addressed by allocation order), the
module-level seeded deviate, the NumPy global generator state, and the
entropy stream consumed whenever an unseeded BaseDeviate is constructed. -/
structure St where
  heap : ℕ → Image
  next : ℕ
  rngState : RngState
  npState : NpState
  entropy : List RngState

/-- Allocate a fresh buffer and return its address. -/
def St.alloc (s : St) (img : Image) : ℕ × St :=
  (s.next, { s with heap := Function.update s.heap s.next img, next := s.next + 1 })

/-- Read a buffer. -/
def St.read (s : St) (r : ℕ) : Image := s.heap r

/-- Overwrite a buffer in place. -/
def St.write (s : St) (r : ℕ) (img : Image) : St :=
  { s with heap := Function.update s.heap r img }

/-- Construction of an unseeded BaseDeviate: consume device entropy. -/
def St.freshDeviate (s : St) : RngState × St :=
  (s.entropy.headD 0, { s with entropy := s.entropy.tail })

/-- Deviate used by a PoissonNoise object: the rng argument when one was
passed to the constructor, otherwise a fresh unseeded deviate. -/
def PoissonNoiseSpec.deviate (pn : PoissonNoiseSpec) (s : St) : RngState × St :=
  match pn.rngArg with
  | some r => (r, s)
  | none => s.freshDeviate

/-- app.py line 58: reshape of a flat 64*64 vector to (64, 64) in C
(row-major) order. -/
def reshape64 (v : Fin (64 * 64) → ℝ) : Image :=
  fun i j => v ⟨64 * i.val + j.val, by have hi := i.isLt; have hj := j.isLt; omega⟩

/-- Total pixel sum of an image, numpy array.sum(). -/
def imageSum (img : Image) : ℝ := ∑ i : Fin 64, ∑ j : Fin 64, img i j

/-- Sum of squared pixel values, numpy (array ** 2).sum(). -/
def imageSumSq (img : Image) : ℝ := ∑ i : Fin 64, ∑ j : Fin 64, img i j ^ 2

/-- Output bundle of generate_image (the dict built on app.py lines 67-74). -/
structure Outcome where
  noised : Image
  psf : Image
  noiseless : Image
  snr : ℝ
  g1 : ℝ
  g2 : ℝ

/-- app.py lines 39-75: generate_image, with the galsim and numpy calls
interpreted by env and all mutable process state threaded through s0.
Each let mirrors one statement of the source. -/
def generate_image (env : GalsimEnv)
    (psf_re bulge_re bulge_n gal_q gal_beta noise gal_flux : ℝ)
    (s0 : St) : Outcome × St :=
  let A := shearA gal_q
  let g_1 := A * Real.cos (2 * gal_beta)
  let g_2 := A * Real.sin (2 * gal_beta)
  let gal := Profile.Sersic bulge_n bulge_re
  let gal := Profile.withFlux gal gal_flux
  let gal := Profile.shear gal g_1 g_2
  let psf := Profile.Moffat psf_beta 1.0 psf_re
  let final := Profile.Convolve [psf, gal]
  let a1 := s0.alloc blankImage
  let image := a1.1
  let s1 := a1.2
  let s2 := s1.write image (env.drawImage final spec64)
  let a2 := s2.alloc (s2.read image)
  let image_nonoise := a2.1
  let s3 := a2.2
  let snr := Real.sqrt (imageSumSq (s3.read image)) / noise
  let pn : PoissonNoiseSpec := { rngArg := none, sky_level := 0.0 }
  let d1 := pn.deviate s3
  let dev := d1.1
  let s4 := d1.2
  let s5 := s4.write image (env.poissonApply dev pn.sky_level (s4.read image))
  let n1 := env.npNormal s5.npState 0 noise
  let noisemap := reshape64 n1.1
  let s6 : St := { s5 with npState := n1.2 }
  let img_fv : Image := fun i j => s6.read image i j + noisemap i j
  let final_2 := psf
  let a3 := s6.alloc blankImage
  let image_2 := a3.1
  let s7 := a3.2
  let s8 := s7.write image_2 (env.drawImage final_2 spec64)
  ({ noised := img_fv, psf := s8.read image_2, noiseless := s8.read image_nonoise,
     snr := snr, g1 := g_1, g2 := g_2 }, s8)

/-- Trivial rendering environment (renders black images, identity photon
noise, zero background field): used for concrete witnesses. -/
def env0 : GalsimEnv where
  drawImage := fun _ _ => blankImage
  poissonApply := fun _ _ img => img
  npNormal := fun s _ _ => (fun _ => 0, s)

/-- Variant of env0 with a different photon-noise semantics but the same
renderer. -/
def env1 : GalsimEnv where
  drawImage := fun _ _ => blankImage
  poissonApply := fun _ _ img => fun i j => img i j + 1
  npNormal := fun s _ _ => (fun _ => 0, s)

/-- Renderer whose images are constant 1/4096, so that every drawn image
has total pixel sum exactly 1. -/
def envUnit : GalsimEnv where
  drawImage := fun _ _ => fun _ _ => (4096 : ℝ)⁻¹
  poissonApply := fun _ _ img => img
  npNormal := fun s _ _ => (fun _ => 0, s)

/-- Flux recorded at the withFlux node of a convolved-galaxy profile AST. -/
def fluxTag : Profile → ℝ
  | Profile.Convolve [_, Profile.shear (Profile.withFlux _ f) _ _] => f
  | _ => 0

mutual

/-- Analytic total flux of a profile AST: a bare Sersic has galsim's
default unit flux, withFlux sets the total flux, the shear transform is
area-preserving and hence flux-preserving, a Moffat carries its flux
argument, and convolution of unit-normalized kernels multiplies total
fluxes. -/
def profileFlux : Profile → ℝ
  | Profile.Sersic _ _ => 1
  | Profile.withFlux _ f => f
  | Profile.shear p _ _ => profileFlux p
  | Profile.Moffat _ f _ => f
  | Profile.Convolve ps => profileFluxList ps

/-- Product of the analytic total fluxes of a list of profiles. -/
def profileFluxList : List Profile → ℝ
  | [] => 1
  | p :: ps => profileFlux p * profileFluxList ps

end

/-- Renderer linear in the galaxy flux parameter: each pixel carries the
flux recorded in the profile. -/
def envLin : GalsimEnv where
  drawImage := fun p _ => fun _ _ => fluxTag p
  poissonApply := fun _ _ img => img
  npNormal := fun s _ _ => (fun _ => 0, s)

/-- Initial process state at module load time. -/
def st0 : St where
  heap := fun _ => blankImage
  next := 0
  rngState := rng
  npState := 0
  entropy := []

theorem generate_fst_eq (env : GalsimEnv)
    (psf_re bulge_re bulge_n gal_q gal_beta noise gal_flux : ℝ) (s0 : St) :
    (generate_image env psf_re bulge_re bulge_n gal_q gal_beta noise gal_flux s0).1 =
      { noised := fun i j =>
          env.poissonApply (s0.entropy.headD 0) 0.0
            (env.drawImage (finalProfile psf_re bulge_re bulge_n gal_q gal_beta gal_flux) spec64) i j
            + reshape64 (env.npNormal s0.npState 0 noise).1 i j
        psf := env.drawImage (psfProfile psf_re) spec64
        noiseless := env.drawImage (finalProfile psf_re bulge_re bulge_n gal_q gal_beta gal_flux) spec64
        snr := Real.sqrt (imageSumSq
          (env.drawImage (finalProfile psf_re bulge_re bulge_n gal_q gal_beta gal_flux) spec64)) / noise
        g1 := shearG1 gal_q gal_beta
        g2 := shearG2 gal_q gal_beta } := by
  simp (disch := omega) only [generate_image, finalProfile, galProfile, psfProfile,
    shearG1, shearG2, St.alloc, St.read, St.write, St.freshDeviate,
    PoissonNoiseSpec.deviate, Function.update_same, Function.update_noteq]

theorem generate_snd_read_image (env : GalsimEnv)
    (psf_re bulge_re bulge_n gal_q gal_beta noise gal_flux : ℝ) (s0 : St) :
    ((generate_image env psf_re bulge_re bulge_n gal_q gal_beta noise gal_flux s0).2).read s0.next =
      env.poissonApply (s0.entropy.headD 0) 0.0
        (env.drawImage (finalProfile psf_re bulge_re bulge_n gal_q gal_beta gal_flux) spec64) := by
  simp (disch := omega) only [generate_image, finalProfile, galProfile, psfProfile,
    shearG1, shearG2, St.alloc, St.read, St.write, St.freshDeviate,
    PoissonNoiseSpec.deviate, Function.update_same, Function.update_noteq]

theorem imageSumSq_smul (c : ℝ) (v : Image) :
    imageSumSq (fun i j => c * v i j) = c ^ 2 * imageSumSq v := by
  simp only [imageSumSq, Finset.mul_sum]
  refine Finset.sum_congr rfl fun i _ => Finset.sum_congr rfl fun j _ => ?_
  ring

/-- C1: for every axis ratio gal_q in (0,1] and every position angle
gal_beta, the shear components returned by generate_image are
g1 = A * cos(2*beta) and g2 = A * sin(2*beta) with A = (1-q)/(1+q); this A
satisfies 0 <= A < 1, the components satisfy g1^2 + g2^2 = A^2, and q = 1
gives g1 = g2 = 0 exactly. -/
theorem shear_components_correct (env : GalsimEnv)
    (psf_re bulge_re bulge_n gal_q gal_beta noise gal_flux : ℝ) (s0 : St)
    (hq0 : 0 < gal_q) (hq1 : gal_q ≤ 1) :
    (generate_image env psf_re bulge_re bulge_n gal_q gal_beta noise gal_flux s0).1.g1 =
        shearA gal_q * Real.cos (2 * gal_beta) ∧
      (generate_image env psf_re bulge_re bulge_n gal_q gal_beta noise gal_flux s0).1.g2 =
        shearA gal_q * Real.sin (2 * gal_beta) ∧
      0 ≤ shearA gal_q ∧ shearA gal_q < 1 ∧
      (generate_image env psf_re bulge_re bulge_n gal_q gal_beta noise gal_flux s0).1.g1 ^ 2 +
          (generate_image env psf_re bulge_re bulge_n gal_q gal_beta noise gal_flux s0).1.g2 ^ 2 =
        shearA gal_q ^ 2 ∧
      (gal_q = 1 →
        (generate_image env psf_re bulge_re bulge_n gal_q gal_beta noise gal_flux s0).1.g1 = 0 ∧
        (generate_image env psf_re bulge_re bulge_n gal_q gal_beta noise gal_flux s0).1.g2 = 0) := by
  rw [generate_fst_eq]
  refine ⟨rfl, rfl, ?_, ?_, ?_, ?_⟩
  · exact div_nonneg (by linarith) (by linarith)
  · rw [shearA, div_lt_one (by linarith)]
    linarith
  · show shearG1 gal_q gal_beta ^ 2 + shearG2 gal_q gal_beta ^ 2 = shearA gal_q ^ 2
    rw [shearG1, shearG2, mul_pow, mul_pow, ← mul_add, Real.cos_sq_add_sin_sq, mul_one]
  · intro h
    subst h
    constructor <;>
      · show shearA 1 * _ = 0
        rw [shearA]
        norm_num

theorem shear_components_correct_witness :
    ((0 : ℝ) < 1 ∧ (1 : ℝ) ≤ 1) ∧
      ((generate_image env0 0.75 0.35 3.25 1 0 300 215000 st0).1.g1 =
          shearA 1 * Real.cos (2 * 0) ∧
        (generate_image env0 0.75 0.35 3.25 1 0 300 215000 st0).1.g2 =
          shearA 1 * Real.sin (2 * 0) ∧
        0 ≤ shearA 1 ∧ shearA 1 < 1 ∧
        (generate_image env0 0.75 0.35 3.25 1 0 300 215000 st0).1.g1 ^ 2 +
            (generate_image env0 0.75 0.35 3.25 1 0 300 215000 st0).1.g2 ^ 2 =
          shearA 1 ^ 2 ∧
        ((1 : ℝ) = 1 →
          (generate_image env0 0.75 0.35 3.25 1 0 300 215000 st0).1.g1 = 0 ∧
          (generate_image env0 0.75 0.35 3.25 1 0 300 215000 st0).1.g2 = 0)) :=
  ⟨⟨by norm_num, le_refl 1⟩,
    shear_components_correct env0 0.75 0.35 3.25 1 0 300 215000 st0 (by norm_num) (le_refl 1)⟩

/-- C2: the snr scalar returned by generate_image equals the square root of
the sum of the squared pixels of the returned noiseless image, divided by
the noise parameter, for every input and rendering environment. -/
theorem snr_recomputable_from_noiseless (env : GalsimEnv)
    (psf_re bulge_re bulge_n gal_q gal_beta noise gal_flux : ℝ) (s0 : St) :
    (generate_image env psf_re bulge_re bulge_n gal_q gal_beta noise gal_flux s0).1.snr =
      Real.sqrt (imageSumSq
        (generate_image env psf_re bulge_re bulge_n gal_q gal_beta noise gal_flux s0).1.noiseless) /
        noise := by
  rw [generate_fst_eq]

/-- C3 (amended): generate_image performs no parameter validation at all;
at gal_q = 0 it does not fail with InvalidParameterError - no such error
exists in the code - but computes the degenerate shear of magnitude
A = 1 (g1^2 + g2^2 = 1) and proceeds to build and render the profile,
returning an outcome. -/
theorem invalid_params_not_rejected (env : GalsimEnv)
    (psf_re bulge_re bulge_n gal_beta noise gal_flux : ℝ) (s0 : St) :
    (generate_image env psf_re bulge_re bulge_n 0 gal_beta noise gal_flux s0).1.g1 ^ 2 +
      (generate_image env psf_re bulge_re bulge_n 0 gal_beta noise gal_flux s0).1.g2 ^ 2 = 1 := by
  rw [generate_fst_eq]
  show shearG1 0 gal_beta ^ 2 + shearG2 0 gal_beta ^ 2 = 1
  rw [shearG1, shearG2, mul_pow, mul_pow, ← mul_add, Real.cos_sq_add_sin_sq, mul_one, shearA]
  norm_num

/-- C3 (counterexample): calling generate_image with gal_q = 0 returns a
fully formed outcome - here with g1 = 1 and g2 = 0, a degenerate
unit-magnitude shear - instead of failing with InvalidParameterError
before any computation. -/
theorem gal_q_zero_returns_result :
    (generate_image env0 0.75 0.35 3.25 0 0 300 215000 st0).1.g1 = 1 ∧
      (generate_image env0 0.75 0.35 3.25 0 0 300 215000 st0).1.g2 = 0 := by
  rw [generate_fst_eq]
  constructor
  · show shearG1 0 0 = 1
    rw [shearG1, shearA]
    norm_num
  · show shearG2 0 0 = 0
    rw [shearG2, shearA]
    norm_num

/-- C4: the analytic total flux of the sheared, rescaled, convolved galaxy
profile that generate_image constructs is exactly gal_flux (unit-flux
Moffat, withFlux gal_flux, flux-preserving shear, multiplicative
convolution), and whenever the renderer rasterizes that profile with
total pixel sum within the integration-truncation tolerance tol of its
analytic flux, the returned 64x64 noiseless image has total pixel sum
within tol of gal_flux. -/
theorem noiseless_flux_matches (env : GalsimEnv)
    (psf_re bulge_re bulge_n gal_q gal_beta noise gal_flux tol : ℝ) (s0 : St)
    (hflux : |imageSum
        (env.drawImage (finalProfile psf_re bulge_re bulge_n gal_q gal_beta gal_flux) spec64) -
        profileFlux (finalProfile psf_re bulge_re bulge_n gal_q gal_beta gal_flux)| ≤ tol) :
    profileFlux (finalProfile psf_re bulge_re bulge_n gal_q gal_beta gal_flux) = gal_flux ∧
      |imageSum
          ((generate_image env psf_re bulge_re bulge_n gal_q gal_beta noise gal_flux
            s0).1.noiseless) - gal_flux| ≤ tol := by
  have h1 : profileFlux (finalProfile psf_re bulge_re bulge_n gal_q gal_beta gal_flux) =
      gal_flux := by
    simp [profileFlux, profileFluxList, finalProfile, galProfile, psfProfile]
    norm_num
  refine ⟨h1, ?_⟩
  rw [generate_fst_eq]
  show |imageSum
      (env.drawImage (finalProfile psf_re bulge_re bulge_n gal_q gal_beta gal_flux) spec64) -
      gal_flux| ≤ tol
  nth_rewrite 2 [← h1]
  exact hflux

theorem noiseless_flux_matches_witness :
    |imageSum (envUnit.drawImage (finalProfile 0.75 0.35 3.25 0.6 1.57 1) spec64) -
        profileFlux (finalProfile 0.75 0.35 3.25 0.6 1.57 1)| ≤ (1 / 100 : ℝ) ∧
      (profileFlux (finalProfile 0.75 0.35 3.25 0.6 1.57 1) = 1 ∧
        |imageSum
            ((generate_image envUnit 0.75 0.35 3.25 0.6 1.57 300 1 st0).1.noiseless) - 1| ≤
          (1 / 100 : ℝ)) := by
  have h : |imageSum (envUnit.drawImage (finalProfile 0.75 0.35 3.25 0.6 1.57 1) spec64) -
      profileFlux (finalProfile 0.75 0.35 3.25 0.6 1.57 1)| ≤ (1 / 100 : ℝ) := by
    have hsum : imageSum (envUnit.drawImage (finalProfile 0.75 0.35 3.25 0.6 1.57 1) spec64) = 1 := by
      simp [imageSum, envUnit, Finset.sum_const, Finset.card_univ]
      norm_num
    have hpf : profileFlux (finalProfile 0.75 0.35 3.25 0.6 1.57 1) = 1 := by
      simp [profileFlux, profileFluxList, finalProfile, galProfile, psfProfile]
      norm_num
    rw [hsum, hpf]
    norm_num
  exact ⟨h, noiseless_flux_matches envUnit 0.75 0.35 3.25 0.6 1.57 300 1 (1 / 100) st0 h⟩

/-- C5: the psf image returned by generate_image is the noiseless
rasterization of the bare, unsheared Moffat PSF profile alone; whenever the
renderer draws that profile with unit pixel sum up to tolerance tol, the
returned psf image has pixel sum 1 up to tol; and the psf image is
independent of bulge_re, bulge_n, gal_q, gal_beta, noise, gal_flux and of
the process state. -/
theorem psf_image_properties (env : GalsimEnv)
    (psf_re bulge_re bulge_n gal_q gal_beta noise gal_flux tol : ℝ) (s0 : St)
    (htol : |imageSum (env.drawImage (psfProfile psf_re) spec64) - 1| ≤ tol) :
    (generate_image env psf_re bulge_re bulge_n gal_q gal_beta noise gal_flux s0).1.psf =
        env.drawImage (psfProfile psf_re) spec64 ∧
      |imageSum
          ((generate_image env psf_re bulge_re bulge_n gal_q gal_beta noise gal_flux s0).1.psf) -
          1| ≤ tol ∧
      ∀ bulge_re2 bulge_n2 gal_q2 gal_beta2 noise2 gal_flux2 : ℝ, ∀ s2 : St,
        (generate_image env psf_re bulge_re2 bulge_n2 gal_q2 gal_beta2 noise2 gal_flux2 s2).1.psf =
          (generate_image env psf_re bulge_re bulge_n gal_q gal_beta noise gal_flux s0).1.psf := by
  refine ⟨?_, ?_, ?_⟩
  · rw [generate_fst_eq]
  · rw [generate_fst_eq]
    exact htol
  · intro bulge_re2 bulge_n2 gal_q2 gal_beta2 noise2 gal_flux2 s2
    rw [generate_fst_eq, generate_fst_eq]

theorem psf_image_properties_witness :
    |imageSum (envUnit.drawImage (psfProfile 0.75) spec64) - 1| ≤ (1 / 100 : ℝ) ∧
      ((generate_image envUnit 0.75 0.35 3.25 0.6 1.57 300 215000 st0).1.psf =
          envUnit.drawImage (psfProfile 0.75) spec64 ∧
        |imageSum
            ((generate_image envUnit 0.75 0.35 3.25 0.6 1.57 300 215000 st0).1.psf) -
            1| ≤ (1 / 100 : ℝ) ∧
        ∀ bulge_re2 bulge_n2 gal_q2 gal_beta2 noise2 gal_flux2 : ℝ, ∀ s2 : St,
          (generate_image envUnit 0.75 bulge_re2 bulge_n2 gal_q2 gal_beta2 noise2 gal_flux2
              s2).1.psf =
            (generate_image envUnit 0.75 0.35 3.25 0.6 1.57 300 215000 st0).1.psf) := by
  have h : |imageSum (envUnit.drawImage (psfProfile 0.75) spec64) - 1| ≤ (1 / 100 : ℝ) := by
    have hsum : imageSum (envUnit.drawImage (psfProfile 0.75) spec64) = 1 := by
      simp [imageSum, envUnit, Finset.sum_const, Finset.card_univ]
      norm_num
    rw [hsum]
    norm_num
  exact ⟨h, psf_image_properties envUnit 0.75 0.35 3.25 0.6 1.57 300 215000 (1 / 100) st0 h⟩

/-- C6 (the code as written, contradicting the claim): the photon-noise
step of generate_image does not draw from the seeded module-level deviate
rng; the deviate it uses is a fresh unseeded one taken from device entropy
(galsim.PoissonNoise is constructed with no rng argument), and the noisy
image is invariant under arbitrary changes of the seeded deviate state. -/
theorem photon_noise_deviate_unseeded (env : GalsimEnv)
    (psf_re bulge_re bulge_n gal_q gal_beta noise gal_flux : ℝ) (s0 : St) (r : RngState) :
    (generate_image env psf_re bulge_re bulge_n gal_q gal_beta noise gal_flux s0).1.noised =
        (fun i j =>
          env.poissonApply (s0.entropy.headD 0) 0.0
            (env.drawImage (finalProfile psf_re bulge_re bulge_n gal_q gal_beta gal_flux)
              spec64) i j
            + reshape64 (env.npNormal s0.npState 0 noise).1 i j) ∧
      (generate_image env psf_re bulge_re bulge_n gal_q gal_beta noise gal_flux
          { s0 with rngState := r }).1.noised =
        (generate_image env psf_re bulge_re bulge_n gal_q gal_beta noise gal_flux s0).1.noised := by
  constructor
  · rw [generate_fst_eq]
  · rw [generate_fst_eq, generate_fst_eq]

/-- C7: the noiseless and psf images are deterministic functions of the
seven scalar parameters and the renderer alone: two calls whose
environments have the same drawImage semantics - however their random
streams, deviate states or buffer heaps differ - return identical
noiseless images and identical psf images. -/
theorem noiseless_psf_deterministic (env env2 : GalsimEnv)
    (psf_re bulge_re bulge_n gal_q gal_beta noise gal_flux : ℝ) (s0 s2 : St)
    (h : env.drawImage = env2.drawImage) :
    (generate_image env psf_re bulge_re bulge_n gal_q gal_beta noise gal_flux s0).1.noiseless =
        (generate_image env2 psf_re bulge_re bulge_n gal_q gal_beta noise gal_flux
          s2).1.noiseless ∧
      (generate_image env psf_re bulge_re bulge_n gal_q gal_beta noise gal_flux s0).1.psf =
        (generate_image env2 psf_re bulge_re bulge_n gal_q gal_beta noise gal_flux s2).1.psf := by
  rw [generate_fst_eq, generate_fst_eq, h]
  exact ⟨rfl, rfl⟩

theorem noiseless_psf_deterministic_witness :
    env0.drawImage = env1.drawImage ∧
      ((generate_image env0 0.75 0.35 3.25 0.6 1.57 300 215000 st0).1.noiseless =
          (generate_image env1 0.75 0.35 3.25 0.6 1.57 300 215000 st0).1.noiseless ∧
        (generate_image env0 0.75 0.35 3.25 0.6 1.57 300 215000 st0).1.psf =
          (generate_image env1 0.75 0.35 3.25 0.6 1.57 300 215000 st0).1.psf) :=
  ⟨rfl, noiseless_psf_deterministic env0 env1 0.75 0.35 3.25 0.6 1.57 300 215000 st0 st0 rfl⟩

/-- C8: the noiseless image returned by generate_image is the rasterization
of the convolved profile taken before any noise is applied, and it is
unchanged by the in-place photon-noise mutation: after the call, the
buffer that held the rasterization (address s0.next) has been overwritten
with the photon-noised data, while the returned noiseless image - the copy
allocated before the mutation - still equals the rasterization. -/
theorem noiseless_unaffected_by_noise_mutation (env : GalsimEnv)
    (psf_re bulge_re bulge_n gal_q gal_beta noise gal_flux : ℝ) (s0 : St) :
    (generate_image env psf_re bulge_re bulge_n gal_q gal_beta noise gal_flux s0).1.noiseless =
        env.drawImage (finalProfile psf_re bulge_re bulge_n gal_q gal_beta gal_flux) spec64 ∧
      ((generate_image env psf_re bulge_re bulge_n gal_q gal_beta noise gal_flux s0).2).read
          s0.next =
        env.poissonApply (s0.entropy.headD 0) 0.0
          (env.drawImage (finalProfile psf_re bulge_re bulge_n gal_q gal_beta gal_flux) spec64) := by
  constructor
  · rw [generate_fst_eq]
  · exact generate_snd_read_image env psf_re bulge_re bulge_n gal_q gal_beta noise gal_flux s0

/-- C9: snr is homogeneous in flux and noise.  Whenever the renderer is
linear in the galaxy flux parameter (doubling the flux recorded in the
profile doubles every pixel of the rasterization, as GalSim guarantees),
calling generate_image with gal_flux doubled yields exactly double the
snr; calling it with noise doubled yields exactly half the snr,
unconditionally. -/
theorem snr_homogeneity (env : GalsimEnv)
    (psf_re bulge_re bulge_n gal_q gal_beta noise gal_flux : ℝ) (s0 s1 s2 : St)
    (hlin : env.drawImage
        (finalProfile psf_re bulge_re bulge_n gal_q gal_beta (2 * gal_flux)) spec64 =
      fun i j =>
        2 * env.drawImage (finalProfile psf_re bulge_re bulge_n gal_q gal_beta gal_flux)
          spec64 i j) :
    (generate_image env psf_re bulge_re bulge_n gal_q gal_beta noise (2 * gal_flux) s1).1.snr =
        2 * (generate_image env psf_re bulge_re bulge_n gal_q gal_beta noise gal_flux s0).1.snr ∧
      (generate_image env psf_re bulge_re bulge_n gal_q gal_beta (2 * noise) gal_flux s2).1.snr =
        (1 / 2) *
          (generate_image env psf_re bulge_re bulge_n gal_q gal_beta noise gal_flux s0).1.snr := by
  rw [generate_fst_eq, generate_fst_eq, generate_fst_eq]
  constructor
  · show Real.sqrt (imageSumSq
        (env.drawImage (finalProfile psf_re bulge_re bulge_n gal_q gal_beta (2 * gal_flux))
          spec64)) / noise = _
    rw [hlin, imageSumSq_smul, Real.sqrt_mul (by norm_num : (0 : ℝ) ≤ 2 ^ 2),
      Real.sqrt_sq (by norm_num : (0 : ℝ) ≤ 2), mul_div_assoc]
  · show Real.sqrt (imageSumSq
        (env.drawImage (finalProfile psf_re bulge_re bulge_n gal_q gal_beta gal_flux)
          spec64)) / (2 * noise) = _
    rw [div_mul_div_comm, one_mul]

theorem snr_homogeneity_witness :
    envLin.drawImage (finalProfile 1 1 1 1 1 (2 * 1)) spec64 =
        (fun i j => 2 * envLin.drawImage (finalProfile 1 1 1 1 1 1) spec64 i j) ∧
      ((generate_image envLin 1 1 1 1 1 1 (2 * 1) st0).1.snr =
          2 * (generate_image envLin 1 1 1 1 1 1 1 st0).1.snr ∧
        (generate_image envLin 1 1 1 1 1 (2 * 1) 1 st0).1.snr =
          (1 / 2) * (generate_image envLin 1 1 1 1 1 1 1 st0).1.snr) := by
  have h : envLin.drawImage (finalProfile 1 1 1 1 1 (2 * 1)) spec64 =
      (fun i j => 2 * envLin.drawImage (finalProfile 1 1 1 1 1 1) spec64 i j) := by
    funext i j
    simp [envLin, fluxTag, finalProfile, galProfile, psfProfile]
  exact ⟨h, snr_homogeneity envLin 1 1 1 1 1 1 1 st0 st0 st0 h⟩

/-- C10: the module-level seeded generator rng is never read or advanced by
generate_image: the rngState component of the process state is returned
unchanged, the outcome is invariant under arbitrary replacement of that
state, and the randomness an invocation does consume comes from the
unseeded streams - one device-entropy deviate is drawn (for the
rng-argument-free PoissonNoise) and the NumPy global state is advanced by
the normal-field draw. -/
theorem module_rng_untouched (env : GalsimEnv)
    (psf_re bulge_re bulge_n gal_q gal_beta noise gal_flux : ℝ) (s0 : St) (r : RngState) :
    (generate_image env psf_re bulge_re bulge_n gal_q gal_beta noise gal_flux s0).2.rngState =
        s0.rngState ∧
      (generate_image env psf_re bulge_re bulge_n gal_q gal_beta noise gal_flux
          { s0 with rngState := r }).1 =
        (generate_image env psf_re bulge_re bulge_n gal_q gal_beta noise gal_flux s0).1 ∧
      (generate_image env psf_re bulge_re bulge_n gal_q gal_beta noise gal_flux s0).2.entropy =
        s0.entropy.tail ∧
      (generate_image env psf_re bulge_re bulge_n gal_q gal_beta noise gal_flux s0).2.npState =
        (env.npNormal s0.npState 0 noise).2 := by
  refine ⟨rfl, ?_, rfl, rfl⟩
  rw [generate_fst_eq, generate_fst_eq]
